import Mathlib

/-!
Shallow embedding of the cart / pricing / checkout core of the e-commerce
repository, and theorems settling the frozen claims about it.

Conventions of the embedding:
* JavaScript numbers are modelled as exact rationals (`ℚ`).
* `Math.round` is modelled by `jsRound` (ties toward positive infinity,
  the ECMAScript semantics).
* `String.prototype.trim` is modelled by `jsTrim` (drop whitespace from
  both ends).
* Fallible operations return `Except`/`Option`; the Firestore `orders`
  collection is passed explicitly as a keyed list, so any write the code
  performs is visible in the returned collection.
* The Redux cart reducers (`addItem`, `removeItem`, `updateQuantity`,
  `clearCart`) are not present in the available sources (only the state
  type, the `initialState`, and their callers are); they are modelled
  from the specification, as marked in their doc comments.
-/

set_option autoImplicit false

namespace Shop

/-- Embedding of `String.prototype.trim`: remove whitespace from both ends. -/
def jsTrim (s : String) : String :=
  ⟨((s.data.dropWhile Char.isWhitespace).reverse.dropWhile Char.isWhitespace).reverse⟩

/-- Embedding of `Math.round`: nearest integer, ties toward positive infinity. -/
def jsRound (x : ℚ) : ℤ :=
  ⌊x + 1/2⌋

/-- Embedding of the `Math.round(x * 100) / 100` idiom used for money values. -/
def round2 (x : ℚ) : ℚ :=
  (jsRound (x * 100) : ℚ) / 100

/-- Tax rate hard-coded as `0.085` in `Checkout.calculateTotal` (`Login.tsx`). -/
def taxRate : ℚ := 0.085

/-- Nested rating structure from `src/types/product.ts`. -/
structure Rating where
  rate : ℚ
  count : ℚ
deriving DecidableEq

/-- Product interface from `src/types/product.ts`. -/
structure Product where
  id : ℚ
  title : String
  price : ℚ
  description : String
  category : String
  image : String
  rating : Rating
deriving DecidableEq

/-- CartItem from `src/features/cart/cartSlice.ts`: a `Product` plus a quantity. -/
structure CartItem where
  id : ℚ
  title : String
  price : ℚ
  description : String
  category : String
  image : String
  rating : Rating
  quantity : ℚ
deriving DecidableEq

/-- Builds the `CartItem` appended by `addItem` for a product not yet in the cart. -/
def Product.toCartItem (p : Product) (quantity : ℚ) : CartItem :=
  { id := p.id, title := p.title, price := p.price, description := p.description,
    category := p.category, image := p.image, rating := p.rating, quantity := quantity }

/-- CartState from `src/features/cart/cartSlice.ts`. -/
structure CartState where
  items : List CartItem
deriving DecidableEq

/-- Initial state of the cart slice (`initialState` in `cartSlice.ts`). -/
def initialState : CartState := ⟨[]⟩

/-- Modelled from the spec: the `addItem` reducer of the cart slice is missing
from the available sources (only its callers dispatch it). Spec 4.1: if the
productId exists, increment its quantity by the given amount, else append a new
line item; negative quantity input is rejected (no-op). -/
def addItem (s : CartState) (product : Product) (quantity : ℚ) : CartState :=
  if quantity < 0 then s
  else if s.items.any (fun it => it.id == product.id) then
    ⟨s.items.map (fun it =>
      if it.id == product.id then { it with quantity := it.quantity + quantity } else it)⟩
  else
    ⟨s.items ++ [product.toCartItem quantity]⟩

/-- Modelled from the spec: the `removeItem` reducer of the cart slice is
missing from the available sources. Spec 4.1: removes the matching entry if
present; no-op if absent. -/
def removeItem (s : CartState) (id : ℚ) : CartState :=
  ⟨s.items.filter (fun it => !(it.id == id))⟩

/-- Modelled from the spec: the `updateQuantity` reducer of the cart slice is
missing from the available sources. Spec 4.1 (`setQuantity`, overwrite branch):
overwrites the matching entry's quantity. -/
def updateQuantity (s : CartState) (id : ℚ) (quantity : ℚ) : CartState :=
  ⟨s.items.map (fun it => if it.id == id then { it with quantity := quantity } else it)⟩

/-- Modelled from the spec: the `clearCart` reducer of the cart slice is
missing from the available sources. Spec 4.1: empties the cart unconditionally. -/
def clearCart (_s : CartState) : CartState :=
  ⟨[]⟩

/-- Cart states reachable from the initial (empty) state through the cart
reducers dispatched by the UI. -/
inductive Reachable : CartState → Prop
  | init : Reachable initialState
  | add (s : CartState) (p : Product) (q : ℚ) : Reachable s → Reachable (addItem s p q)
  | remove (s : CartState) (i : ℚ) : Reachable s → Reachable (removeItem s i)
  | update (s : CartState) (i : ℚ) (q : ℚ) : Reachable s → Reachable (updateQuantity s i q)
  | clear (s : CartState) : Reachable s → Reachable (clearCart s)

/-- The product ids of the cart entries, in cart order. -/
def cartIds (l : List CartItem) : List ℚ :=
  l.map (·.id)

/-- Embedding of `handleQuantityChange` from the ShoppingCart component:
dispatches `removeItem` when the new quantity is `≤ 0`, otherwise dispatches
`updateQuantity`. -/
def handleQuantityChange (s : CartState) (id : ℚ) (newQuantity : ℚ) : CartState :=
  if newQuantity ≤ 0 then removeItem s id
  else updateQuantity s id newQuantity

/-- Embedding of `Checkout.calculateSubtotal` (`Login.tsx`):
`cartItems.reduce((sum, item) => sum + item.price * item.quantity, 0)`. -/
def calculateSubtotal (cartItems : List CartItem) : ℚ :=
  cartItems.foldl (fun sum item => sum + item.price * item.quantity) 0

/-- Embedding of `Checkout.calculateTotal` (`Login.tsx`): subtotal, plus 8.5%
tax, rounded to cents with `Math.round`. -/
def calculateTotal (cartItems : List CartItem) : ℚ :=
  let subtotal := cartItems.foldl (fun sum item => sum + item.price * item.quantity) 0
  let tax := subtotal * taxRate
  round2 (subtotal + tax)

/-- OrderItem interface from `src/utils/orderApi.ts`. -/
structure OrderItem where
  productId : String
  name : String
  price : ℚ
  quantity : ℚ
deriving DecidableEq

/-- Order status union type from `src/utils/orderApi.ts`. -/
inductive OrderStatus where
  | pending
  | confirmed
  | shipped
  | delivered
  | cancelled
deriving DecidableEq

/-- Order interface from `src/utils/orderApi.ts` (`createdAt` is the epoch
timestamp of the `Date` the code stores). -/
structure Order where
  orderId : String
  userId : String
  products : List OrderItem
  totalPrice : ℚ
  status : OrderStatus
  createdAt : ℕ
  shippingAddress : String
deriving DecidableEq

/-- CreateOrderData interface from `src/utils/orderApi.ts`. -/
structure CreateOrderData where
  userId : String
  products : List OrderItem
  shippingAddress : String
deriving DecidableEq

/-- Ambient JavaScript state read by `createOrder`: `Date.now()` and the
random suffix `Math.random().toString(36).substr(2, 9)`. -/
structure JsEnv where
  now : ℕ
  randSuffix : String
deriving DecidableEq

/-- The Firestore `orders` collection, modelled as a keyed list of documents. -/
def OrdersCollection := List (String × Order)
deriving DecidableEq

/-- Embedding of Firestore `setDoc` on the `orders` collection: writes the
document at the given id, replacing any existing one. -/
def setDocOrders (store : OrdersCollection) (id : String) (o : Order) : OrdersCollection :=
  (id, o) :: (store : List (String × Order)).filter (fun kv => !(kv.1 == id))

/-- Looks a document up in the modelled `orders` collection. -/
def getDocOrders (store : OrdersCollection) (id : String) : Option Order :=
  ((store : List (String × Order)).find? (fun kv => kv.1 == id)).map (·.2)

/-- The order id generated by `createOrder`:
`` `order_${Date.now()}_${Math.random().toString(36).substr(2, 9)}` ``. -/
def generatedOrderId (env : JsEnv) : String :=
  "order_" ++ Nat.repr env.now ++ "_" ++ env.randSuffix

/-- Embedding of `createOrder` from `src/utils/orderApi.ts`. It generates the
order id, sums `price * quantity` over the products, rounds with
`Math.round(x * 100) / 100`, builds the order with status `pending`, writes it
to the `orders` collection with `setDoc`, and returns it; a `setDoc` failure is
logged and rethrown by the surrounding catch block, which the `Except.error`
branch models. The function performs no input validation. -/
def createOrder (env : JsEnv) (setDocSucceeds : Bool) (store : OrdersCollection)
    (orderData : CreateOrderData) : Except String (Order × OrdersCollection) :=
  let orderId := generatedOrderId env
  let totalPrice :=
    orderData.products.foldl (fun total product => total + product.price * product.quantity) 0
  let order : Order :=
    { orderId := orderId
      userId := orderData.userId
      products := orderData.products
      totalPrice := round2 totalPrice
      status := OrderStatus.pending
      createdAt := env.now
      shippingAddress := orderData.shippingAddress }
  if setDocSucceeds then Except.ok (order, setDocOrders store orderId order)
  else Except.error "Error creating order"

/-- Rendering of a money value in the checkout success message
(`Intl.NumberFormat` is abstracted to a plain dollar rendering; no claim
inspects this text). -/
def formatCurrency (amount : ℚ) : String :=
  "$" ++ toString amount

/-- Embedding of `Checkout.validateForm` (`Login.tsx`): requires a logged-in
user, a non-blank shipping address, and a non-empty cart; returns whether the
form is valid together with the error message it sets. -/
def validateForm (user : Option String) (shippingAddress : String)
    (cartItems : List CartItem) : Bool × String :=
  match user with
  | none => (false, "Please log in to complete your order")
  | some _ =>
    if jsTrim shippingAddress = "" then (false, "Please enter a shipping address")
    else if cartItems = [] then (false, "Your cart is empty")
    else (true, "")

/-- Conversion of a cart item to an order item as done in `handleCheckout`:
`productId: item.id.toString(), name: item.title, price, quantity`. -/
def cartItemToOrderItem (item : CartItem) : OrderItem :=
  { productId := toString item.id, name := item.title,
    price := item.price, quantity := item.quantity }

/-- Observable outcome of one run of `Checkout.handleCheckout`: the error and
success messages, the cart contents, the `cart` sessionStorage entry, the
shipping-address field, and the `orders` collection afterwards. -/
structure CheckoutResult where
  error : String
  success : String
  cartItems : List CartItem
  sessionCart : Option String
  shippingAddress : String
  ordersStore : OrdersCollection

/-- Embedding of `Checkout.handleCheckout` (`Login.tsx`). After validation it
calls `createOrder`; on success it clears the cart, removes the `cart`
sessionStorage entry, shows a success message and resets the address field. On
a thrown error the catch block logs it, shows the success message
"Successful order! Will be shipped ASAP" (a comment in the source says "for
demo purposes"), and clears the cart, the sessionStorage entry and the address
field all the same. -/
def handleCheckout (user : Option String) (shippingAddress : String)
    (cartItems : List CartItem) (sessionCart : Option String)
    (env : JsEnv) (setDocSucceeds : Bool) (store : OrdersCollection) : CheckoutResult :=
  match validateForm user shippingAddress cartItems with
  | (false, err) =>
    { error := err, success := "", cartItems := cartItems, sessionCart := sessionCart,
      shippingAddress := shippingAddress, ordersStore := store }
  | (true, _) =>
    match user with
    | none =>
      { error := "", success := "", cartItems := cartItems, sessionCart := sessionCart,
        shippingAddress := shippingAddress, ordersStore := store }
    | some uid =>
      let orderItems := cartItems.map cartItemToOrderItem
      let orderData : CreateOrderData :=
        { userId := uid, products := orderItems, shippingAddress := jsTrim shippingAddress }
      match createOrder env setDocSucceeds store orderData with
      | Except.ok (newOrder, store2) =>
        { error := ""
          success := "Order " ++ newOrder.orderId ++ " has been placed successfully! Total: "
            ++ formatCurrency newOrder.totalPrice
          cartItems := [], sessionCart := none, shippingAddress := "", ordersStore := store2 }
      | Except.error _ =>
        { error := ""
          success := "Successful order! Will be shipped ASAP"
          cartItems := [], sessionCart := none, shippingAddress := "", ordersStore := store }

/-- JSON values, as far as the serialized cart needs them. `JSON.stringify`
followed by `JSON.parse` is the identity on the text level (numbers round-trip
exactly in ECMAScript), so serialization is modelled at the JSON-value level. -/
inductive Json where
  | num : ℚ → Json
  | str : String → Json
  | arr : List Json → Json
  | obj : List (String × Json) → Json

/-- JSON object produced by serializing a `Rating`. -/
def encodeRating (r : Rating) : Json :=
  Json.obj [("rate", Json.num r.rate), ("count", Json.num r.count)]

/-- JSON object produced by serializing a `CartItem` (fields in declaration
order, as `JSON.stringify` emits them). -/
def encodeCartItem (it : CartItem) : Json :=
  Json.obj
    [ ("id", Json.num it.id), ("title", Json.str it.title), ("price", Json.num it.price),
      ("description", Json.str it.description), ("category", Json.str it.category),
      ("image", Json.str it.image), ("rating", encodeRating it.rating),
      ("quantity", Json.num it.quantity) ]

/-- JSON object produced by `JSON.stringify(state.cart)` in the
`store.subscribe` callback: the cart state with its `items` array. -/
def encodeCartState (s : CartState) : Json :=
  Json.obj [("items", Json.arr (s.items.map encodeCartItem))]

/-- Reading a `CartItem` back out of a parsed JSON value. -/
def decodeCartItem (j : Json) : Option CartItem :=
  match j with
  | Json.obj
      [ ("id", Json.num id), ("title", Json.str title), ("price", Json.num price),
        ("description", Json.str description), ("category", Json.str category),
        ("image", Json.str image),
        ("rating", Json.obj [("rate", Json.num rate), ("count", Json.num count)]),
        ("quantity", Json.num quantity) ] =>
    some { id := id, title := title, price := price, description := description,
           category := category, image := image, rating := ⟨rate, count⟩,
           quantity := quantity }
  | _ => none

/-- Reading the items array back out of a parsed JSON value. -/
def decodeCartItems : List Json → Option (List CartItem)
  | [] => some []
  | j :: rest =>
    match decodeCartItem j, decodeCartItems rest with
    | some it, some its => some (it :: its)
    | _, _ => none

/-- Reading a whole `CartState` back out of a parsed JSON value. -/
def decodeCartState (j : Json) : Option CartState :=
  match j with
  | Json.obj [("items", Json.arr xs)] => (decodeCartItems xs).map CartState.mk
  | _ => none

/-- Embedding of `loadState` from the store module: `sessionStorage.getItem('cart')`
is `null` (`none`) or holds the serialized cart, which `JSON.parse` turns back
into the preloaded cart state; a parse failure is treated as no saved state. -/
def loadState (stored : Option Json) : Option CartState :=
  match stored with
  | none => none
  | some j => decodeCartState j

/-- Embedding of the `store.subscribe` callback: the state written to the
`cart` sessionStorage key is the serialized cart slice. -/
def saveCart (s : CartState) : Json :=
  encodeCartState s

/-- Fixed rating used by the concrete scenario inputs below. -/
def demoRating : Rating := ⟨4.5, 120⟩

/-- First product of the end-to-end scenario (`sku1`, unit price 99.99). -/
def sku1 : Product :=
  ⟨1, "sku1", 99.99, "first demo product", "demo", "sku1.png", demoRating⟩

/-- Second product of the end-to-end scenario (`sku2`, unit price 24.99). -/
def sku2 : Product :=
  ⟨2, "sku2", 24.99, "second demo product", "demo", "sku2.png", demoRating⟩

/-- Cart built by the end-to-end scenario: `addItem(sku1, 1)` then
`addItem(sku2, 2)` starting from the empty cart. -/
def scenarioCart : CartState :=
  addItem (addItem initialState sku1 1) sku2 2

/-- Concrete ambient state for scenario runs: `Date.now() = 1000`, random
suffix `abc123def`. -/
def envA : JsEnv := ⟨1000, "abc123def"⟩

/-- Second concrete ambient state, one millisecond later than `envA`. -/
def envB : JsEnv := ⟨1001, "abc123def"⟩

/-- Order items of the pricing-determinism example (also the repo's own
`calculates total price correctly` test): unit price 10.50 times 3 and
unit price 25.00 times 2. -/
def pricingItems : List OrderItem :=
  [ ⟨"prod1", "Item 1", 10.50, 3⟩, ⟨"prod2", "Item 2", 25.00, 2⟩ ]

/-- The same two line items as cart entries, for `calculateTotal`. -/
def pricingCartItems : List CartItem :=
  [ ⟨101, "Item 1", 10.50, "d1", "c1", "i1", demoRating, 3⟩,
    ⟨102, "Item 2", 25.00, "d2", "c2", "i2", demoRating, 2⟩ ]

/-- Create-order input of the pricing-determinism example. -/
def pricingOrderData : CreateOrderData :=
  ⟨"user123", pricingItems, "123 Test St"⟩

/-- Create-order input with an empty products list (checkout-validation example
`createOrder(userId, [], "123 Main St")`). -/
def emptyProductsOrderData : CreateOrderData :=
  ⟨"user123", [], "123 Main St"⟩

/-- A single cart item used by the checkout-failure runs. -/
def demoCartItem : CartItem :=
  ⟨7, "Demo Item", 10, "d", "c", "i", demoRating, 1⟩

/-- The order record `createOrder` actually builds for `pricingOrderData` under
`envA`: total 81.50 (the rounded subtotal — no tax), status pending. -/
def pricingOrder : Order :=
  { orderId := "order_1000_abc123def", userId := "user123", products := pricingItems,
    totalPrice := 163/2, status := OrderStatus.pending, createdAt := 1000,
    shippingAddress := "123 Test St" }

/-! Helper lemmas about the cart reducers. -/

theorem cartIds_map_id_preserving (f : CartItem → CartItem)
    (hf : ∀ it, (f it).id = it.id) (l : List CartItem) :
    cartIds (l.map f) = cartIds l := by
  induction l with
  | nil => rfl
  | cons a t ih =>
    simp only [cartIds, List.map_cons] at ih ⊢
    rw [hf a, ih]

theorem cartIds_append (l₁ l₂ : List CartItem) :
    cartIds (l₁ ++ l₂) = cartIds l₁ ++ cartIds l₂ := by
  simp [cartIds]

theorem addItem_id_preserving (p : Product) (q : ℚ) (it : CartItem) :
    (if it.id == p.id then { it with quantity := it.quantity + q } else it).id = it.id := by
  split <;> rfl

theorem updateQuantity_id_preserving (i : ℚ) (q : ℚ) (it : CartItem) :
    (if it.id == i then { it with quantity := q } else it).id = it.id := by
  split <;> rfl

theorem not_mem_cartIds_of_any_eq_false (l : List CartItem) (i : ℚ)
    (h : l.any (fun it => it.id == i) = false) : i ∉ cartIds l := by
  simp only [List.any_eq_false, beq_iff_eq] at h
  simp only [cartIds, List.mem_map, not_exists]
  intro it hmem
  exact h it hmem.1 hmem.2

theorem addItem_nodup (s : CartState) (p : Product) (q : ℚ)
    (h : (cartIds s.items).Nodup) : (cartIds (addItem s p q).items).Nodup := by
  unfold addItem
  split
  · exact h
  split
  · show (cartIds (s.items.map _)).Nodup
    rw [cartIds_map_id_preserving _ (addItem_id_preserving p q)]
    exact h
  · rename_i hneg hany
    have hnotmem : p.id ∉ cartIds s.items :=
      not_mem_cartIds_of_any_eq_false s.items p.id (by simpa using hany)
    show (cartIds (s.items ++ [p.toCartItem q])).Nodup
    rw [cartIds_append]
    refine List.Nodup.append h (by simp [cartIds, Product.toCartItem]) ?_
    intro a ha hb
    simp only [cartIds, Product.toCartItem, List.map_cons, List.map_nil,
      List.mem_singleton] at hb
    exact hnotmem (hb ▸ ha)

theorem removeItem_nodup (s : CartState) (i : ℚ)
    (h : (cartIds s.items).Nodup) : (cartIds (removeItem s i).items).Nodup := by
  unfold removeItem
  show (cartIds (s.items.filter _)).Nodup
  simp only [cartIds] at h ⊢
  exact h.sublist (List.Sublist.map (·.id) (List.filter_sublist s.items))

theorem updateQuantity_nodup (s : CartState) (i : ℚ) (q : ℚ)
    (h : (cartIds s.items).Nodup) : (cartIds (updateQuantity s i q).items).Nodup := by
  unfold updateQuantity
  show (cartIds (s.items.map _)).Nodup
  rw [cartIds_map_id_preserving _ (updateQuantity_id_preserving i q)]
  exact h

theorem reachable_nodup (s : CartState) (h : Reachable s) : (cartIds s.items).Nodup := by
  induction h with
  | init => simp [initialState, cartIds]
  | add s p q _ ih => exact addItem_nodup s p q ih
  | remove s i _ ih => exact removeItem_nodup s i ih
  | update s i q _ ih => exact updateQuantity_nodup s i q ih
  | clear s _ _ => simp [clearCart, cartIds]

theorem any_id_eq_false_of_not_mem (l : List CartItem) (i : ℚ)
    (h : i ∉ cartIds l) : l.any (fun it => it.id == i) = false := by
  simp only [cartIds, List.mem_map, not_exists] at h
  simp only [List.any_eq_false, beq_iff_eq]
  intro it hmem hid
  exact h it ⟨hmem, hid⟩

theorem map_increment_of_not_mem (l : List CartItem) (p : Product) (q : ℚ)
    (h : p.id ∉ cartIds l) :
    l.map (fun it =>
      if it.id == p.id then { it with quantity := it.quantity + q } else it) = l := by
  induction l with
  | nil => rfl
  | cons a t ih =>
    simp only [cartIds, List.map_cons, List.mem_cons, not_or] at h
    simp only [List.map_cons]
    rw [if_neg (by simp only [beq_iff_eq]; exact fun hh => h.1 hh.symm),
      ih (by simpa [cartIds] using h.2)]

theorem filter_id_eq_nil_of_not_mem (l : List CartItem) (i : ℚ)
    (h : i ∉ cartIds l) : l.filter (fun it => it.id == i) = [] := by
  induction l with
  | nil => rfl
  | cons a t ih =>
    simp only [cartIds, List.map_cons, List.mem_cons, not_or] at h
    rw [List.filter_cons_of_neg (by simp only [beq_iff_eq]; exact fun hh => h.1 hh.symm),
      ih (by simpa [cartIds] using h.2)]

theorem addItem_merge (s : CartState) (p : Product) (q₁ q₂ : ℚ)
    (hq₁ : 0 ≤ q₁) (hq₂ : 0 ≤ q₂) (h : p.id ∉ cartIds s.items) :
    addItem (addItem s p q₁) p q₂ = ⟨s.items ++ [p.toCartItem (q₁ + q₂)]⟩ := by
  have step₁ : addItem s p q₁ = ⟨s.items ++ [p.toCartItem q₁]⟩ := by
    unfold addItem
    rw [if_neg (not_lt.mpr hq₁), if_neg (by simp [any_id_eq_false_of_not_mem s.items p.id h])]
  rw [step₁]
  unfold addItem
  rw [if_neg (not_lt.mpr hq₂), if_pos (by simp [Product.toCartItem])]
  simp only [List.map_append, List.map_cons, List.map_nil,
    map_increment_of_not_mem s.items p q₂ h]
  rw [if_pos (by simp [Product.toCartItem])]
  rfl

/-- C6: for every reachable cart state no two entries share a productId, and
adding an already-present productId merges by incrementing the quantity:
`addItem(p, 2)` then `addItem(p, 3)` on a cart without `p` leaves exactly one
line item for `p`, with quantity 5. -/
theorem cart_unique_productId_invariant :
    (∀ s : CartState, Reachable s → (cartIds s.items).Nodup) ∧
    (∀ (s : CartState) (p : Product), p.id ∉ cartIds s.items →
      (addItem (addItem s p 2) p 3).items.filter (fun it => it.id == p.id)
        = [p.toCartItem (2 + 3)]) := by
  refine ⟨reachable_nodup, fun s p h => ?_⟩
  rw [addItem_merge s p 2 3 (by norm_num) (by norm_num) h]
  show (s.items ++ [p.toCartItem (2 + 3)]).filter _ = _
  rw [List.filter_append, filter_id_eq_nil_of_not_mem s.items p.id h]
  simp [Product.toCartItem]

/-- Witness for C6 at concrete inputs: the empty cart is reachable with no
duplicate ids, and merging `sku1` twice into it yields one entry of quantity 5. -/
theorem cart_unique_productId_invariant_witness :
    (cartIds initialState.items).Nodup ∧
    (addItem (addItem initialState sku1 2) sku1 3).items.filter
        (fun it => it.id == sku1.id) = [sku1.toCartItem (2 + 3)] :=
  ⟨cart_unique_productId_invariant.1 initialState Reachable.init,
   cart_unique_productId_invariant.2 initialState sku1 (by simp [cartIds, initialState])⟩

/-- C7: `addItem` with a negative quantity is a no-op — the cart state is
returned unchanged (and the reducer is total, so it never errors). -/
theorem addItem_negative_noop (s : CartState) (p : Product) (q : ℚ) (h : q < 0) :
    addItem s p q = s := by
  unfold addItem
  rw [if_pos h]

/-- Witness for C7: `addItem(sku1, -1)` on the empty cart returns it unchanged. -/
theorem addItem_negative_noop_witness :
    addItem initialState sku1 (-1) = initialState :=
  addItem_negative_noop initialState sku1 (-1) (by decide)

/-- C8: `handleQuantityChange` (the `setQuantity` of the spec) with quantity
`≤ 0` is exactly `removeItem`; with a positive quantity it keeps the cart's ids
and overwrites the matching entry's quantity. -/
theorem handleQuantityChange_spec (s : CartState) (id q : ℚ) :
    (q ≤ 0 → handleQuantityChange s id q = removeItem s id) ∧
    (0 < q →
      cartIds (handleQuantityChange s id q).items = cartIds s.items ∧
      ∀ it ∈ (handleQuantityChange s id q).items, it.id = id → it.quantity = q) := by
  constructor
  · intro h
    unfold handleQuantityChange
    rw [if_pos h]
  · intro h
    have hne : ¬q ≤ 0 := not_le.mpr h
    unfold handleQuantityChange
    rw [if_neg hne]
    constructor
    · show cartIds (s.items.map _) = _
      exact cartIds_map_id_preserving _ (updateQuantity_id_preserving id q) s.items
    · intro it hmem hid
      simp only [updateQuantity, List.mem_map] at hmem
      obtain ⟨x, _, hx⟩ := hmem
      by_cases hxid : x.id = id
      · rw [← hx, if_pos (by simp [hxid])]
      · exfalso
        rw [← hx, if_neg (by simp [hxid])] at hid
        exact hxid hid

/-- Witness for C8 at concrete inputs: quantity 0 removes the entry, quantity 2
overwrites it. -/
theorem handleQuantityChange_spec_witness :
    (handleQuantityChange ⟨[demoCartItem]⟩ 7 0 = removeItem ⟨[demoCartItem]⟩ 7) ∧
    cartIds (handleQuantityChange ⟨[demoCartItem]⟩ 7 2).items = cartIds [demoCartItem] :=
  ⟨(handleQuantityChange_spec ⟨[demoCartItem]⟩ 7 0).1 (by decide),
   ((handleQuantityChange_spec ⟨[demoCartItem]⟩ 7 2).2 (by decide)).1⟩

theorem decodeCartItem_encodeCartItem (it : CartItem) :
    decodeCartItem (encodeCartItem it) = some it := rfl

theorem decodeCartItems_encode (l : List CartItem) :
    decodeCartItems (l.map encodeCartItem) = some l := by
  induction l with
  | nil => rfl
  | cons a t ih =>
    simp only [List.map_cons, decodeCartItems, decodeCartItem_encodeCartItem, ih]

/-- C9: serializing the cart to the sessionStorage `cart` entry and loading it
back into a fresh store yields the identical cart state — same items, same
quantities, same order. -/
theorem cart_snapshot_roundtrip (s : CartState) :
    loadState (some (saveCart s)) = some s := by
  simp only [loadState, saveCart, encodeCartState, decodeCartState,
    decodeCartItems_encode]
  rfl

/-- C1 (counterexample): `createOrder(user123, [], "123 Main St")` does not
fail — it returns a full order record with total 0 and status pending. -/
theorem createOrder_no_validation_counterexample :
    (createOrder envA true [] emptyProductsOrderData).map
        (fun r => (r.1.orderId, r.1.totalPrice, r.1.status, r.1.shippingAddress))
      = Except.ok ("order_1000_abc123def", 0, OrderStatus.pending, "123 Main St") := by
  norm_num [createOrder, generatedOrderId, envA, emptyProductsOrderData, round2, jsRound,
    Except.map]
  decide

/-- C1 (amended): `createOrder` performs no input validation — with an empty
products list, a blank shipping address, or an absent userId it still returns
an order record (when the write succeeds); those conditions are instead
rejected beforehand by the checkout form's `validateForm`. -/
theorem createOrder_no_validation (env : JsEnv) (store : OrdersCollection)
    (data : CreateOrderData) (user : Option String) (addr : String) (items : List CartItem)
    (_hdata : data.products = [] ∨ jsTrim data.shippingAddress = "" ∨ data.userId = "")
    (hform : user = none ∨ jsTrim addr = "" ∨ items = []) :
    (createOrder env true store data).isOk = true ∧
    (validateForm user addr items).1 = false := by
  refine ⟨rfl, ?_⟩
  rcases hform with h | h | h
  · simp [validateForm, h]
  · cases user with
    | none => simp [validateForm]
    | some uid => simp [validateForm, h]
  · cases user with
    | none => simp [validateForm]
    | some uid =>
      by_cases haddr : jsTrim addr = "" <;> simp [validateForm, haddr, h]

/-- Witness for C1: a concrete call with an empty products list succeeds, and
a form with no logged-in user is rejected. -/
theorem createOrder_no_validation_witness :
    (createOrder envA true [] emptyProductsOrderData).isOk = true ∧
    (validateForm none "1 Oak Ave" [demoCartItem]).1 = false :=
  createOrder_no_validation envA [] emptyProductsOrderData none "1 Oak Ave" [demoCartItem]
    (Or.inl rfl) (Or.inl rfl)

/-- C2 (counterexample): a concrete checkout run in which order persistence
throws produces the success message "Successful order! Will be shipped ASAP"
and no error message — the failure is reported as success. -/
theorem checkout_masks_error_counterexample :
    (handleCheckout (some "user123") "1 Oak Ave" [demoCartItem] (some "cart")
        envA false []).success = "Successful order! Will be shipped ASAP" ∧
    (handleCheckout (some "user123") "1 Oak Ave" [demoCartItem] (some "cart")
        envA false []).error = "" := by
  constructor <;> decide

/-- C2 (amended): whenever the order-creation step throws inside a validated
checkout run, `handleCheckout` swallows the error: the error message stays
empty and the user is shown the success message "Successful order! Will be
shipped ASAP" — the failure is not surfaced. -/
theorem checkout_error_reported_as_success (uid addr : String) (items : List CartItem)
    (session : Option String) (env : JsEnv) (store : OrdersCollection)
    (haddr : jsTrim addr ≠ "") (hitems : items ≠ []) :
    (handleCheckout (some uid) addr items session env false store).error = "" ∧
    (handleCheckout (some uid) addr items session env false store).success
      = "Successful order! Will be shipped ASAP" := by
  have hform : validateForm (some uid) addr items = (true, "") := by
    simp [validateForm, haddr, hitems]
  simp [handleCheckout, hform, createOrder]

/-- Witness for C2 at concrete inputs: a failed persistence run with a valid
form shows the success message. -/
theorem checkout_error_reported_as_success_witness :
    (handleCheckout (some "u1") "5 Elm St" [demoCartItem] none envA false []).error = "" ∧
    (handleCheckout (some "u1") "5 Elm St" [demoCartItem] none envA false []).success
      = "Successful order! Will be shipped ASAP" :=
  checkout_error_reported_as_success "u1" "5 Elm St" [demoCartItem] none envA []
    (by decide) (by decide)

/-- C10: whenever the order-creation step throws inside a validated checkout
run, the handler still clears the cart, removes the `cart` sessionStorage
entry, and resets the shipping-address field — the cart is not preserved on
error. -/
theorem checkout_error_clears_cart (uid addr : String) (items : List CartItem)
    (session : Option String) (env : JsEnv) (store : OrdersCollection)
    (haddr : jsTrim addr ≠ "") (hitems : items ≠ []) :
    (handleCheckout (some uid) addr items session env false store).cartItems = [] ∧
    (handleCheckout (some uid) addr items session env false store).sessionCart = none ∧
    (handleCheckout (some uid) addr items session env false store).shippingAddress = "" := by
  have hform : validateForm (some uid) addr items = (true, "") := by
    simp [validateForm, haddr, hitems]
  simp [handleCheckout, hform, createOrder]

/-- Witness for C10 at concrete inputs: after a failed persistence run the
cart, the sessionStorage entry and the address field are all cleared. -/
theorem checkout_error_clears_cart_witness :
    (handleCheckout (some "u2") "9 Pine Rd" [demoCartItem] (some "cart")
        envB false []).cartItems = [] ∧
    (handleCheckout (some "u2") "9 Pine Rd" [demoCartItem] (some "cart")
        envB false []).sessionCart = none ∧
    (handleCheckout (some "u2") "9 Pine Rd" [demoCartItem] (some "cart")
        envB false []).shippingAddress = "" :=
  checkout_error_clears_cart "u2" "9 Pine Rd" [demoCartItem] (some "cart") envB []
    (by decide) (by decide)

theorem getDocOrders_setDocOrders (store : OrdersCollection) (id : String) (o : Order) :
    getDocOrders (setDocOrders store id o) id = some o := by
  simp [getDocOrders, setDocOrders, List.find?]

theorem generatedOrderId_ne_empty (env : JsEnv) : generatedOrderId env ≠ "" := by
  intro h
  have hlen := congrArg String.length h
  have h6 : "order_".length = 6 := by decide
  have h1 : "_".length = 1 := by decide
  have h0 : "".length = 0 := by decide
  simp only [generatedOrderId, String.length_append, h6, h1, h0] at hlen
  omega

/-- C3 (counterexample): a concrete `createOrder` call on an empty `orders`
collection returns with the collection no longer empty — the function itself
performed the write. -/
theorem createOrder_persists_counterexample :
    (createOrder envA true [] pricingOrderData).map (fun r => r.2)
      = Except.ok [("order_1000_abc123def", pricingOrder)] ∧
    ([("order_1000_abc123def", pricingOrder)] : OrdersCollection) ≠ [] := by
  constructor
  · have hid : generatedOrderId ⟨1000, "abc123def"⟩ = "order_1000_abc123def" := by decide
    norm_num [createOrder, hid, envA, pricingOrderData, pricingItems,
      setDocOrders, round2, jsRound, Except.map, pricingOrder]
  · intro h
    exact List.cons_ne_nil _ _ h

/-- C3 (amended): `createOrder` does not delegate persistence to its caller —
it writes the order into the `orders` collection itself (`setDoc`) and then
returns it; the returned collection holds the new order under its id. -/
theorem createOrder_persists (env : JsEnv) (store : OrdersCollection)
    (data : CreateOrderData) :
    ∃ o store₂, createOrder env true store data = Except.ok (o, store₂) ∧
      store₂ = setDocOrders store o.orderId o ∧
      getDocOrders store₂ o.orderId = some o := by
  refine ⟨_, _, rfl, rfl, ?_⟩
  exact getDocOrders_setDocOrders store _ _

/-- C4 (counterexample): on the spec's own pricing items the order record's
computed total is 81.50 — `round(subtotal, 2)` with no tax — not the claimed
`round(subtotal + tax, 2) = 88.43`. -/
theorem order_total_ignores_tax_counterexample :
    (createOrder envA true [] pricingOrderData).map (fun r => r.1.totalPrice)
      = Except.ok (163/2) ∧
    round2 (calculateSubtotal pricingCartItems
        + calculateSubtotal pricingCartItems * taxRate) = 8843/100 ∧
    (163/2 : ℚ) ≠ 8843/100 := by
  refine ⟨?_, ?_, by norm_num⟩
  · norm_num [createOrder, envA, pricingOrderData, pricingItems, round2, jsRound, Except.map]
  · norm_num [calculateSubtotal, pricingCartItems, taxRate, round2, jsRound, List.foldl]

/-- C4 (amended): the checkout-displayed total `calculateTotal` equals
`round(subtotal + subtotal * 0.085, 2)` (round-half-up at the cent boundary,
88.43 on the spec's pricing items), while the order record built by
`createOrder` carries `round(subtotal, 2)` with no tax applied (81.50 on the
same items). -/
theorem order_total_vs_display_total :
    (∀ items : List CartItem,
      calculateTotal items
        = round2 (calculateSubtotal items + calculateSubtotal items * taxRate)) ∧
    (∀ (env : JsEnv) (store : OrdersCollection) (data : CreateOrderData),
      ∃ o store₂, createOrder env true store data = Except.ok (o, store₂) ∧
        o.totalPrice
          = round2 (data.products.foldl
              (fun total product => total + product.price * product.quantity) 0)) ∧
    calculateTotal pricingCartItems = 8843/100 ∧
    (createOrder envA true [] pricingOrderData).map (fun r => r.1.totalPrice)
      = Except.ok (163/2) := by
  refine ⟨fun items => rfl, fun env store data => ⟨_, _, rfl, rfl⟩, ?_, ?_⟩
  · norm_num [calculateTotal, calculateSubtotal, pricingCartItems, taxRate, round2,
      jsRound, List.foldl]
  · norm_num [createOrder, envA, pricingOrderData, pricingItems, round2, jsRound, Except.map]

/-- C5 (counterexample): on the end-to-end scenario cart (`sku1` at 99.99
quantity 1, `sku2` at 24.99 quantity 2) the order returned by `createOrder`
has total 149.97 — the rounded subtotal — not the claimed 162.71. -/
theorem scenario_total_counterexample :
    calculateSubtotal scenarioCart.items = 14997/100 ∧
    (createOrder envA true []
        ⟨"user123", scenarioCart.items.map cartItemToOrderItem, "1 Oak Ave"⟩).map
        (fun r => r.1.totalPrice) = Except.ok (14997/100) ∧
    (14997/100 : ℚ) ≠ 16271/100 := by
  refine ⟨?_, ?_, by norm_num⟩
  · norm_num [calculateSubtotal, scenarioCart, addItem, initialState, sku1, sku2,
      Product.toCartItem, List.foldl]
  · norm_num [createOrder, envA, scenarioCart, addItem, initialState, sku1, sku2,
      Product.toCartItem, cartItemToOrderItem, round2, jsRound, Except.map, List.foldl]

/-- C5 (amended): the end-to-end scenario — empty cart, `addItem(sku1, 1)`,
`addItem(sku2, 2)` — has subtotal 149.97, and `createOrder("user123", snapshot,
"1 Oak Ave")` returns an order record with status pending, total 149.97
(`createOrder` applies no tax; the checkout-displayed total for this cart is
162.72), and a non-empty order id; runs at distinct timestamps produce
distinct ids. -/
theorem scenario_end_to_end (env : JsEnv) (store : OrdersCollection) :
    calculateSubtotal scenarioCart.items = 14997/100 ∧
    (∃ o store₂,
      createOrder env true store
          ⟨"user123", scenarioCart.items.map cartItemToOrderItem, "1 Oak Ave"⟩
        = Except.ok (o, store₂) ∧
      o.status = OrderStatus.pending ∧ o.totalPrice = 14997/100 ∧ o.orderId ≠ "") ∧
    calculateTotal scenarioCart.items = 16272/100 ∧
    generatedOrderId envA ≠ generatedOrderId envB := by
  refine ⟨?_, ⟨_, _, rfl, rfl, ?_, generatedOrderId_ne_empty env⟩, ?_, by decide⟩
  · norm_num [calculateSubtotal, scenarioCart, addItem, initialState, sku1, sku2,
      Product.toCartItem, List.foldl]
  · norm_num [scenarioCart, addItem, initialState, sku1, sku2, Product.toCartItem,
      cartItemToOrderItem, round2, jsRound, List.foldl]
  · norm_num [calculateTotal, calculateSubtotal, scenarioCart, addItem, initialState,
      sku1, sku2, Product.toCartItem, taxRate, round2, jsRound, List.foldl]

end Shop
